import Mathlib

/-!
Shallow embedding of the DFL FPGA error-management driver
(`drivers/fpga/dfl-fme-error.c` and the AFU port error file).

Registers are 64-bit and modelled as `Nat` values below `2 ^ 64`.
Status / first-error / next-error registers are write-1-to-clear
latches (a store of `w` clears the bits of `w`); mask registers and
the inject register are plain read/write storage.
-/

/-- GENMASK_ULL(63, 0): the all-ones 64-bit value. -/
def GENMASK64 : Nat := 2 ^ 64 - 1

/-- BIT_ULL(6): the MBP (management-bus parity) error bit of FME_ERROR. -/
def MBP_ERROR : Nat := 2 ^ 6

/-- GENMASK_ULL(2, 0): the low three bits of RAS_ERROR_INJECT. -/
def INJECT_ERROR_MASK : Nat := 7

/-- Linux errno EINVAL. -/
def EINVAL : Int := 22

/-- Linux errno EBUSY. -/
def EBUSY : Int := 16

/-- Modelled from the spec: write-1-to-clear latch semantics of the
status, first-error and next-error hardware registers — a 64-bit store
of `w` clears exactly the bits set in `w` and leaves the rest. -/
def w1c (reg w : Nat) : Nat := reg &&& (GENMASK64 ^^^ (w &&& GENMASK64))

theorem testBit_GENMASK64 (i : Nat) : GENMASK64.testBit i = decide (i < 64) :=
  Nat.testBit_two_pow_sub_one 64 i

theorem testBit_high_false {x i : Nat} (hx : x < 2 ^ 64) (hi : 64 ≤ i) :
    x.testBit i = false := by
  apply Nat.testBit_lt_two_pow
  exact lt_of_lt_of_le hx (Nat.pow_le_pow_right (by norm_num) hi)

/-- Writing a W1C latch with its own current value clears it entirely. -/
theorem w1c_self (x : Nat) (hx : x < 2 ^ 64) : w1c x x = 0 := by
  apply Nat.eq_of_testBit_eq
  intro i
  simp only [w1c, Nat.testBit_land, Nat.testBit_xor, testBit_GENMASK64,
    Nat.zero_testBit]
  by_cases hi : i < 64
  · simp [hi]
  · simp [testBit_high_false hx (le_of_not_lt hi)]

namespace FmeErr

/-- The FME global-error register block of `dfl-fme-error.c`, one field per
64-bit register, plus the feature revision (`dfl_feature_revision(base)`,
a read-only field of the feature header). -/
structure FmeRegs where
  revision : Nat
  fme_error_mask : Nat
  fme_error : Nat
  pcie0_error_mask : Nat
  pcie0_error : Nat
  pcie1_error_mask : Nat
  pcie1_error : Nat
  fme_first_error : Nat
  fme_next_error : Nat
  ras_nonfat_error_mask : Nat
  ras_nonfat_error : Nat
  ras_catfat_error_mask : Nat
  ras_catfat_error : Nat
  ras_error_inject : Nat
deriving DecidableEq, Repr

/-- `dfl_feature_revision(base)`. -/
def dfl_feature_revision (s : FmeRegs) : Nat := s.revision

/-- The locked register transaction of `clear_store` (dfl-fme-error.c
lines 272-289); `val` is the parsed u64, the result is `(ret, post-state)`
with `ret = 0` on success (the sysfs wrapper then returns `count`). -/
def clear_store (s : FmeRegs) (val : Nat) : Int × FmeRegs :=
  let s1 : FmeRegs := { s with fme_error_mask := GENMASK64 }
  let v := s1.fme_error
  let (ret, s2) :=
    if val = v then
      let sA : FmeRegs := { s1 with fme_error := w1c s1.fme_error v }
      let v1 := sA.fme_first_error
      let sB : FmeRegs := { sA with fme_first_error := w1c sA.fme_first_error v1 }
      let v2 := sB.fme_next_error
      let sC : FmeRegs := { sB with fme_next_error := w1c sB.fme_next_error v2 }
      ((0 : Int), sC)
    else
      (-EINVAL, s1)
  let s3 : FmeRegs :=
    { s2 with fme_error_mask := if dfl_feature_revision s2 ≠ 0 then 0 else MBP_ERROR }
  (ret, s3)

/-- The locked register transaction of `pcie0_errors_store`
(dfl-fme-error.c lines 78-88). -/
def pcie0_errors_store (s : FmeRegs) (val : Nat) : Int × FmeRegs :=
  let s1 : FmeRegs := { s with pcie0_error_mask := GENMASK64 }
  let v := s1.pcie0_error
  let (ret, s2) :=
    if val = v then
      ((0 : Int), { s1 with pcie0_error := w1c s1.pcie0_error v })
    else
      (-EINVAL, s1)
  let s3 : FmeRegs := { s2 with pcie0_error_mask := 0 }
  (ret, s3)

/-- The locked register transaction of `pcie1_errors_store`
(dfl-fme-error.c lines 120-130). -/
def pcie1_errors_store (s : FmeRegs) (val : Nat) : Int × FmeRegs :=
  let s1 : FmeRegs := { s with pcie1_error_mask := GENMASK64 }
  let v := s1.pcie1_error
  let (ret, s2) :=
    if val = v then
      ((0 : Int), { s1 with pcie1_error := w1c s1.pcie1_error v })
    else
      (-EINVAL, s1)
  let s3 : FmeRegs := { s2 with pcie1_error_mask := 0 }
  (ret, s3)

/-- `inject_error_store` (dfl-fme-error.c lines 186-199): `inject_error`
is the parsed u8; the range check runs before any register access, the
inject register is plain read-modify-write storage. -/
def inject_error_store (s : FmeRegs) (inject_error : Nat) : Int × FmeRegs :=
  if inject_error &&& (GENMASK64 ^^^ INJECT_ERROR_MASK) ≠ 0 then
    (-EINVAL, s)
  else
    let v := s.ras_error_inject
    let v := v &&& (GENMASK64 ^^^ INJECT_ERROR_MASK)
    let v := v ||| (inject_error &&& INJECT_ERROR_MASK)
    ((0 : Int), { s with ras_error_inject := v })

/-- `fme_error_enable` (dfl-fme-error.c lines 313-324): drive every mask
in the FME-global family to its steady-state value at init. -/
def fme_error_enable (s : FmeRegs) : FmeRegs :=
  let s1 : FmeRegs :=
    { s with fme_error_mask := if dfl_feature_revision s ≠ 0 then 0 else MBP_ERROR }
  let s2 : FmeRegs := { s1 with pcie0_error_mask := 0 }
  let s3 : FmeRegs := { s2 with pcie1_error_mask := 0 }
  let s4 : FmeRegs := { s3 with ras_nonfat_error_mask := 0 }
  { s4 with ras_catfat_error_mask := 0 }

end FmeErr

namespace AfuErr

/-- The AFU port error block plus the pieces of its environment the clear
transaction touches: the port header status register, the
reset line driven by the PortController, and an oracle `disable_ret`
giving the result of the `__port_disable` handshake. -/
structure PortState where
  port_error_mask : Nat
  port_error : Nat
  port_first_error : Nat
  port_malformed_req0 : Nat
  port_malformed_req1 : Nat
  hdr_sts : Nat
  in_reset : Bool
  disable_ret : Int
deriving DecidableEq, Repr

/-- Modelled from the spec: the deep power-gated state encoding of the
port header power-state field (the header layout is not under src/). -/
def PORT_STS_PWR_STATE_AP6 : Nat := 6

/-- Modelled from the spec: `FIELD_GET(PORT_STS_PWR_STATE, v)` — the
power-state field of the port header status register (bits 13..10 of
`PORT_HDR_STS`; the header layout is not under src/). -/
def port_power_state (v : Nat) : Nat := (v >>> 10) &&& 15

/-- Modelled from the spec: PortController quiesce — `__port_disable`
holds the port in reset; the handshake may fail with a nonzero error,
in which case the port is not quiesced and nothing changes. -/
def __port_disable (s : PortState) : Int × PortState :=
  if s.disable_ret = 0 then (0, { s with in_reset := true })
  else (s.disable_ret, s)

/-- Modelled from the spec: PortController re-enable — `__port_enable`
pulls the port out of reset. -/
def __port_enable (s : PortState) : PortState := { s with in_reset := false }

/-- GENMASK_ULL(63, 0) of the port file. -/
def ERROR_MASK : Nat := GENMASK64

/-- `__port_err_mask` (part_000 lines 30-37): mask or unmask port errors
by the error mask register. -/
def __port_err_mask (s : PortState) (mask : Bool) : PortState :=
  { s with port_error_mask := if mask then ERROR_MASK else 0 }

/-- `__port_err_clear` (part_000 lines 40-96): the port clear
transaction, invoked with the port lock held; `err` is the parsed u64. -/
def __port_err_clear (s : PortState) (err : Nat) : Int × PortState :=
  let v := s.hdr_sts
  if port_power_state v = PORT_STS_PWR_STATE_AP6 then
    (-EBUSY, s)
  else
    let (ret, s1) := __port_disable s
    if ret ≠ 0 then
      (ret, s1)
    else
      let s2 := __port_err_mask s1 true
      let v := s2.port_error
      let (ret, s3) :=
        if v = err then
          let sA : PortState := { s2 with port_error := w1c s2.port_error v }
          let v1 := sA.port_first_error
          ((0 : Int), { sA with port_first_error := w1c sA.port_first_error v1 })
        else
          (-EINVAL, s2)
      let s4 := __port_err_mask s3 false
      let s5 := __port_enable s4
      (ret, s5)

/-- `port_err_init` steady-state: enable is `__port_err_mask(dev, false)`
(part_000 line 203). -/
def port_err_enable (s : PortState) : PortState := __port_err_mask s false

end AfuErr

/-- One step of a sysfs handler, as it appears textually in the source:
a mutex acquire/release or a 64-bit register load/store at a byte
offset from the feature base. -/
inductive RegOp where
  | lock : RegOp
  | unlock : RegOp
  | readReg : Nat → RegOp
  | writeReg : Nat → RegOp
deriving DecidableEq, Repr

/-- Every register load in the trace happens while the mutex depth is
positive (`d` counts currently-held acquisitions). -/
def readsUnderLock : List RegOp → Nat → Bool
  | [], _ => true
  | RegOp.lock :: t, d => readsUnderLock t (d + 1)
  | RegOp.unlock :: t, d => readsUnderLock t (d - 1)
  | RegOp.readReg _ :: t, d => decide (0 < d) && readsUnderLock t d
  | RegOp.writeReg _ :: t, d => readsUnderLock t d

namespace FmeErr

/-- Byte offsets of dfl-fme-error.c lines 23-36. -/
def FME_ERROR : Nat := 0x10

def PCIE0_ERROR : Nat := 0x20

def PCIE1_ERROR : Nat := 0x30

def FME_FIRST_ERROR : Nat := 0x38

def FME_NEXT_ERROR : Nat := 0x40

def RAS_NONFAT_ERROR : Nat := 0x50

def RAS_CATFAT_ERROR : Nat := 0x60

def RAS_ERROR_INJECT : Nat := 0x68

/-- Trace of `pcie0_errors_show` (lines 51-61): one raw load, no lock. -/
def pcie0_errors_show_ops : List RegOp := [RegOp.readReg PCIE0_ERROR]

/-- Trace of `pcie1_errors_show` (lines 93-103). -/
def pcie1_errors_show_ops : List RegOp := [RegOp.readReg PCIE1_ERROR]

/-- Trace of `nonfatal_errors_show` (lines 135-145). -/
def nonfatal_errors_show_ops : List RegOp := [RegOp.readReg RAS_NONFAT_ERROR]

/-- Trace of `catfatal_errors_show` (lines 148-158). -/
def catfatal_errors_show_ops : List RegOp := [RegOp.readReg RAS_CATFAT_ERROR]

/-- Trace of `inject_error_show` (lines 161-174). -/
def inject_error_show_ops : List RegOp := [RegOp.readReg RAS_ERROR_INJECT]

/-- Trace of the FME `errors_show` (lines 219-229). -/
def errors_show_ops : List RegOp := [RegOp.readReg FME_ERROR]

/-- Trace of the FME `first_error_show` (lines 232-242). -/
def first_error_show_ops : List RegOp := [RegOp.readReg FME_FIRST_ERROR]

/-- Trace of the FME `next_error_show` (lines 245-255). -/
def next_error_show_ops : List RegOp := [RegOp.readReg FME_NEXT_ERROR]

end FmeErr

namespace AfuErr

/-- Byte offsets of part_000 lines 21-25. -/
def PORT_ERROR : Nat := 0x10

def PORT_FIRST_ERROR : Nat := 0x18

def PORT_MALFORMED_REQ0 : Nat := 0x20

def PORT_MALFORMED_REQ1 : Nat := 0x28

/-- Trace of the port `errors_show` (part_000 lines 109-123): the load
runs under `pdata->lock`. -/
def errors_show_ops : List RegOp :=
  [RegOp.lock, RegOp.readReg PORT_ERROR, RegOp.unlock]

/-- Trace of the port `first_error_show` (part_000 lines 126-140). -/
def first_error_show_ops : List RegOp :=
  [RegOp.lock, RegOp.readReg PORT_FIRST_ERROR, RegOp.unlock]

/-- Trace of `first_malformed_req_show` (part_000 lines 143-160). -/
def first_malformed_req_show_ops : List RegOp :=
  [RegOp.lock, RegOp.readReg PORT_MALFORMED_REQ0,
   RegOp.readReg PORT_MALFORMED_REQ1, RegOp.unlock]

end AfuErr

/-- A port state with the power-state field at AP6, used to instantiate
the port theorems; `6 <<< 10 = 6144`. -/
def portAp6 : AfuErr.PortState :=
  { port_error_mask := 0, port_error := 5, port_first_error := 3,
    port_malformed_req0 := 11, port_malformed_req1 := 12,
    hdr_sts := 6144, in_reset := false, disable_ret := 0 }

/-- A quiescent port state (power state normal, disable handshake
succeeding, steady-state mask, port enabled). -/
def portOk : AfuErr.PortState :=
  { port_error_mask := 0, port_error := 5, port_first_error := 3,
    port_malformed_req0 := 11, port_malformed_req1 := 12,
    hdr_sts := 0, in_reset := false, disable_ret := 0 }

/-- A port state whose disable handshake fails with -ETIMEDOUT (-110). -/
def portDisableFail : AfuErr.PortState :=
  { portOk with disable_ret := -110 }

/-- C5: for the Port domain, if the power-state field of the header
register reads AP6, `__port_err_clear` returns -EBUSY
(DevicePowerGated) and the whole machine state — every error register,
the mask, the header and the reset line — is exactly as found:
zero register writes. -/
theorem port_clear_ap6_no_writes (p : AfuErr.PortState) (err : Nat)
    (h : AfuErr.port_power_state p.hdr_sts = AfuErr.PORT_STS_PWR_STATE_AP6) :
    AfuErr.__port_err_clear p err = (-EBUSY, p) := by
  simp [AfuErr.__port_err_clear, h]

/-- Witness for `port_clear_ap6_no_writes` at a concrete AP6 state. -/
theorem port_clear_ap6_no_writes_witness :
    AfuErr.__port_err_clear portAp6 7 = (-EBUSY, portAp6) :=
  port_clear_ap6_no_writes portAp6 7 (by decide)

/-- C10: for the Port domain, if the AP6 check passes but the
PortController disable handshake fails, `__port_err_clear` returns that
error immediately and the state is exactly as found: the mask is not
written, status and first-error are not written, and the re-enable step
does not run. -/
theorem port_clear_disable_failure (p : AfuErr.PortState) (err : Nat)
    (h6 : AfuErr.port_power_state p.hdr_sts ≠ AfuErr.PORT_STS_PWR_STATE_AP6)
    (hd : p.disable_ret ≠ 0) :
    AfuErr.__port_err_clear p err = (p.disable_ret, p) := by
  simp [AfuErr.__port_err_clear, AfuErr.__port_disable, h6, hd]

/-- Witness for `port_clear_disable_failure` at a concrete failing
handshake. -/
theorem port_clear_disable_failure_witness :
    AfuErr.__port_err_clear portDisableFail 7 = (-110, portDisableFail) :=
  port_clear_disable_failure portDisableFail 7 (by decide) (by decide)

/-- C4: for the Port domain, once the AP6 check has passed and the port
has been quiesced (the disable handshake succeeded), `__port_err_clear`
re-enables the port unconditionally before returning: on the success
path and on the Mismatch path alike, the returned state has the port out
of reset. -/
theorem port_clear_reenables (p : AfuErr.PortState) (err : Nat)
    (h6 : AfuErr.port_power_state p.hdr_sts ≠ AfuErr.PORT_STS_PWR_STATE_AP6)
    (hd : p.disable_ret = 0) :
    (AfuErr.__port_err_clear p err).2.in_reset = false := by
  simp [AfuErr.__port_err_clear, AfuErr.__port_disable, h6,
    AfuErr.__port_err_mask, AfuErr.__port_enable, hd]

/-- Witness for `port_clear_reenables`, exercised on both a matching
(success) and a non-matching (Mismatch) expected value. -/
theorem port_clear_reenables_witness :
    (AfuErr.__port_err_clear portOk 5).2.in_reset = false ∧
    (AfuErr.__port_err_clear portOk 6).2.in_reset = false :=
  ⟨port_clear_reenables portOk 5 (by decide) (by decide),
   port_clear_reenables portOk 6 (by decide) (by decide)⟩

/-- Closed form of the FME `clear_store` transaction. -/
theorem clear_store_eq (s : FmeErr.FmeRegs) (val : Nat) :
    FmeErr.clear_store s val =
      if val = s.fme_error then
        (0, { s with fme_error := w1c s.fme_error s.fme_error,
                     fme_first_error := w1c s.fme_first_error s.fme_first_error,
                     fme_next_error := w1c s.fme_next_error s.fme_next_error,
                     fme_error_mask := if s.revision ≠ 0 then 0 else MBP_ERROR })
      else
        (-EINVAL,
         { s with fme_error_mask := if s.revision ≠ 0 then 0 else MBP_ERROR }) := by
  by_cases h : val = s.fme_error <;>
    simp [FmeErr.clear_store, FmeErr.dfl_feature_revision, h]

/-- Closed form of the `pcie0_errors_store` transaction. -/
theorem pcie0_errors_store_eq (s : FmeErr.FmeRegs) (val : Nat) :
    FmeErr.pcie0_errors_store s val =
      if val = s.pcie0_error then
        (0, { s with pcie0_error := w1c s.pcie0_error s.pcie0_error,
                     pcie0_error_mask := 0 })
      else
        (-EINVAL, { s with pcie0_error_mask := 0 }) := by
  by_cases h : val = s.pcie0_error <;> simp [FmeErr.pcie0_errors_store, h]

/-- Closed form of the `pcie1_errors_store` transaction. -/
theorem pcie1_errors_store_eq (s : FmeErr.FmeRegs) (val : Nat) :
    FmeErr.pcie1_errors_store s val =
      if val = s.pcie1_error then
        (0, { s with pcie1_error := w1c s.pcie1_error s.pcie1_error,
                     pcie1_error_mask := 0 })
      else
        (-EINVAL, { s with pcie1_error_mask := 0 }) := by
  by_cases h : val = s.pcie1_error <;> simp [FmeErr.pcie1_errors_store, h]

/-- Closed form of the port clear transaction past the AP6 check with a
succeeding disable handshake. -/
theorem port_err_clear_eq (p : AfuErr.PortState) (err : Nat)
    (h6 : AfuErr.port_power_state p.hdr_sts ≠ AfuErr.PORT_STS_PWR_STATE_AP6)
    (hd : p.disable_ret = 0) :
    AfuErr.__port_err_clear p err =
      if p.port_error = err then
        (0, { p with port_error := w1c p.port_error p.port_error,
                     port_first_error := w1c p.port_first_error p.port_first_error,
                     port_error_mask := 0, in_reset := false })
      else
        (-EINVAL, { p with port_error_mask := 0, in_reset := false }) := by
  by_cases h : p.port_error = err <;>
    simp [AfuErr.__port_err_clear, AfuErr.__port_disable, AfuErr.__port_err_mask,
      AfuErr.__port_enable, h6, hd, h]

/-- A concrete FME register state at steady-state masks, used to
instantiate the FME theorems. -/
def sampleFme : FmeErr.FmeRegs :=
  { revision := 1, fme_error_mask := 0, fme_error := 5,
    pcie0_error_mask := 0, pcie0_error := 3,
    pcie1_error_mask := 0, pcie1_error := 9,
    fme_first_error := 2, fme_next_error := 4,
    ras_nonfat_error_mask := 0, ras_nonfat_error := 0,
    ras_catfat_error_mask := 0, ras_catfat_error := 0,
    ras_error_inject := 496 }

theorem neg_EINVAL_ne_zero : -EINVAL ≠ (0 : Int) := by decide

theorem EINVAL_ne_zero : EINVAL ≠ (0 : Int) := by decide

/-- C1: for every domain kind (Port, FME-Global, PCIe0, PCIe1) and every
64-bit input, the clear transaction succeeds iff the status value read
during the transaction (which the all-ones mask write does not disturb,
and which for Port is read after the AP6 check passed and the port was
quiesced) equals the input; on success the write-1-to-clear store zeroes
the status register; on inequality the transaction returns -EINVAL
(Mismatch) and the status register is not written. -/
theorem clear_success_iff (s : FmeErr.FmeRegs) (p : AfuErr.PortState)
    (val val0 val1 err : Nat)
    (hf : s.fme_error < 2 ^ 64) (h0 : s.pcie0_error < 2 ^ 64)
    (h1 : s.pcie1_error < 2 ^ 64) (hp : p.port_error < 2 ^ 64)
    (h6 : AfuErr.port_power_state p.hdr_sts ≠ AfuErr.PORT_STS_PWR_STATE_AP6)
    (hd : p.disable_ret = 0) :
    (((FmeErr.clear_store s val).1 = 0 ↔ val = s.fme_error) ∧
     (val = s.fme_error → (FmeErr.clear_store s val).2.fme_error = 0) ∧
     (val ≠ s.fme_error → (FmeErr.clear_store s val).1 = -EINVAL ∧
       (FmeErr.clear_store s val).2.fme_error = s.fme_error)) ∧
    (((FmeErr.pcie0_errors_store s val0).1 = 0 ↔ val0 = s.pcie0_error) ∧
     (val0 = s.pcie0_error →
       (FmeErr.pcie0_errors_store s val0).2.pcie0_error = 0) ∧
     (val0 ≠ s.pcie0_error →
       (FmeErr.pcie0_errors_store s val0).1 = -EINVAL ∧
       (FmeErr.pcie0_errors_store s val0).2.pcie0_error = s.pcie0_error)) ∧
    (((FmeErr.pcie1_errors_store s val1).1 = 0 ↔ val1 = s.pcie1_error) ∧
     (val1 = s.pcie1_error →
       (FmeErr.pcie1_errors_store s val1).2.pcie1_error = 0) ∧
     (val1 ≠ s.pcie1_error →
       (FmeErr.pcie1_errors_store s val1).1 = -EINVAL ∧
       (FmeErr.pcie1_errors_store s val1).2.pcie1_error = s.pcie1_error)) ∧
    (((AfuErr.__port_err_clear p err).1 = 0 ↔ err = p.port_error) ∧
     (err = p.port_error →
       (AfuErr.__port_err_clear p err).2.port_error = 0) ∧
     (err ≠ p.port_error →
       (AfuErr.__port_err_clear p err).1 = -EINVAL ∧
       (AfuErr.__port_err_clear p err).2.port_error = p.port_error)) := by
  refine ⟨?_, ?_, ?_, ?_⟩
  · by_cases h : val = s.fme_error <;>
      simp [clear_store_eq, h, w1c_self _ hf, neg_EINVAL_ne_zero, EINVAL_ne_zero]
  · by_cases h : val0 = s.pcie0_error <;>
      simp [pcie0_errors_store_eq, h, w1c_self _ h0, neg_EINVAL_ne_zero, EINVAL_ne_zero]
  · by_cases h : val1 = s.pcie1_error <;>
      simp [pcie1_errors_store_eq, h, w1c_self _ h1, neg_EINVAL_ne_zero, EINVAL_ne_zero]
  · rw [port_err_clear_eq p err h6 hd]
    by_cases h : err = p.port_error
    · subst h
      simp [w1c_self _ hp]
    · rw [if_neg (fun hh => h hh.symm)]
      simp [h, neg_EINVAL_ne_zero, EINVAL_ne_zero]

/-- Witness for `clear_success_iff`: at `sampleFme` a matching FME clear
succeeds and at `portOk` a non-matching port clear returns -EINVAL. -/
theorem clear_success_iff_witness :
    (FmeErr.clear_store sampleFme 5).1 = 0 ∧
    (AfuErr.__port_err_clear portOk 6).1 = -EINVAL := by
  have h := clear_success_iff sampleFme portOk 5 3 9 6
    (by decide) (by decide) (by decide) (by decide) (by decide) (by decide)
  exact ⟨h.1.1.mpr (by decide), (h.2.2.2.2.2 (by decide)).1⟩

/-- C2 counterexample: at a port whose first-error latch holds 3, a
successful clear (expected 5 matching the status) writes the first-error
register too — it reads back 0 — so the Port clear does write a
register other than its own mask and status registers. -/
theorem port_clear_writes_first_error :
    (AfuErr.__port_err_clear portOk 5).1 = 0 ∧
    portOk.port_first_error = 3 ∧
    (AfuErr.__port_err_clear portOk 5).2.port_first_error = 0 := by
  refine ⟨?_, rfl, ?_⟩ <;> decide

/-- C2 amended: during a successful clear, the FmeGlobal kind writes
back its freshly-read first-error and next-error latches, and the Port
kind additionally writes back its own freshly-read first-error latch (it
has no next-error register); the PCIe0 and PCIe1 kinds write no register
other than their own mask and status registers — every other register of
the block, the first-error and next-error latches included, is
untouched by them. -/
theorem clear_writeback_frame (s : FmeErr.FmeRegs) (p : AfuErr.PortState)
    (val val0 val1 err : Nat)
    (hff : s.fme_first_error < 2 ^ 64) (hfn : s.fme_next_error < 2 ^ 64)
    (hpf : p.port_first_error < 2 ^ 64)
    (h6 : AfuErr.port_power_state p.hdr_sts ≠ AfuErr.PORT_STS_PWR_STATE_AP6)
    (hd : p.disable_ret = 0) :
    (val = s.fme_error →
      (FmeErr.clear_store s val).2.fme_first_error = 0 ∧
      (FmeErr.clear_store s val).2.fme_next_error = 0) ∧
    (err = p.port_error →
      (AfuErr.__port_err_clear p err).2.port_first_error = 0 ∧
      (AfuErr.__port_err_clear p err).2.port_malformed_req0
          = p.port_malformed_req0 ∧
      (AfuErr.__port_err_clear p err).2.port_malformed_req1
          = p.port_malformed_req1 ∧
      (AfuErr.__port_err_clear p err).2.hdr_sts = p.hdr_sts) ∧
    ((FmeErr.pcie0_errors_store s val0).2.fme_error_mask = s.fme_error_mask ∧
     (FmeErr.pcie0_errors_store s val0).2.fme_error = s.fme_error ∧
     (FmeErr.pcie0_errors_store s val0).2.pcie1_error_mask = s.pcie1_error_mask ∧
     (FmeErr.pcie0_errors_store s val0).2.pcie1_error = s.pcie1_error ∧
     (FmeErr.pcie0_errors_store s val0).2.fme_first_error = s.fme_first_error ∧
     (FmeErr.pcie0_errors_store s val0).2.fme_next_error = s.fme_next_error ∧
     (FmeErr.pcie0_errors_store s val0).2.ras_nonfat_error_mask
         = s.ras_nonfat_error_mask ∧
     (FmeErr.pcie0_errors_store s val0).2.ras_nonfat_error = s.ras_nonfat_error ∧
     (FmeErr.pcie0_errors_store s val0).2.ras_catfat_error_mask
         = s.ras_catfat_error_mask ∧
     (FmeErr.pcie0_errors_store s val0).2.ras_catfat_error = s.ras_catfat_error ∧
     (FmeErr.pcie0_errors_store s val0).2.ras_error_inject = s.ras_error_inject) ∧
    ((FmeErr.pcie1_errors_store s val1).2.fme_error_mask = s.fme_error_mask ∧
     (FmeErr.pcie1_errors_store s val1).2.fme_error = s.fme_error ∧
     (FmeErr.pcie1_errors_store s val1).2.pcie0_error_mask = s.pcie0_error_mask ∧
     (FmeErr.pcie1_errors_store s val1).2.pcie0_error = s.pcie0_error ∧
     (FmeErr.pcie1_errors_store s val1).2.fme_first_error = s.fme_first_error ∧
     (FmeErr.pcie1_errors_store s val1).2.fme_next_error = s.fme_next_error ∧
     (FmeErr.pcie1_errors_store s val1).2.ras_nonfat_error_mask
         = s.ras_nonfat_error_mask ∧
     (FmeErr.pcie1_errors_store s val1).2.ras_nonfat_error = s.ras_nonfat_error ∧
     (FmeErr.pcie1_errors_store s val1).2.ras_catfat_error_mask
         = s.ras_catfat_error_mask ∧
     (FmeErr.pcie1_errors_store s val1).2.ras_catfat_error = s.ras_catfat_error ∧
     (FmeErr.pcie1_errors_store s val1).2.ras_error_inject = s.ras_error_inject) := by
  refine ⟨?_, ?_, ?_, ?_⟩
  · intro h
    simp [clear_store_eq, h, w1c_self _ hff, w1c_self _ hfn]
  · intro h
    subst h
    simp [port_err_clear_eq p _ h6 hd, w1c_self _ hpf]
  · by_cases h : val0 = s.pcie0_error <;> simp [pcie0_errors_store_eq, h]
  · by_cases h : val1 = s.pcie1_error <;> simp [pcie1_errors_store_eq, h]

/-- Witness for `clear_writeback_frame` at concrete states with matching
inputs. -/
theorem clear_writeback_frame_witness :
    (FmeErr.clear_store sampleFme 5).2.fme_first_error = 0 ∧
    (AfuErr.__port_err_clear portOk 5).2.port_malformed_req0
        = portOk.port_malformed_req0 := by
  have h := clear_writeback_frame sampleFme portOk 5 3 9 5
    (by decide) (by decide) (by decide) (by decide) (by decide)
  exact ⟨(h.1 (by decide)).1, (h.2.1 (by decide)).2.1⟩

/-- C3: for every domain and every input, when a clear transaction
returns (success or Mismatch), the mask register holds the domain's
steady-state value — 0 for Port, PCIe0 and PCIe1, and for FME-Global 0
unless the hardware revision is 0, in which case exactly the MBP bit —
and is in particular never left at the all-ones transaction value. -/
theorem clear_mask_steady (s : FmeErr.FmeRegs) (p : AfuErr.PortState)
    (val val0 val1 err : Nat)
    (h6 : AfuErr.port_power_state p.hdr_sts ≠ AfuErr.PORT_STS_PWR_STATE_AP6)
    (hd : p.disable_ret = 0) :
    ((FmeErr.clear_store s val).2.fme_error_mask
        = (if s.revision ≠ 0 then 0 else MBP_ERROR)) ∧
    (FmeErr.clear_store s val).2.fme_error_mask ≠ GENMASK64 ∧
    (FmeErr.pcie0_errors_store s val0).2.pcie0_error_mask = 0 ∧
    (FmeErr.pcie1_errors_store s val1).2.pcie1_error_mask = 0 ∧
    (AfuErr.__port_err_clear p err).2.port_error_mask = 0 := by
  refine ⟨?_, ?_, ?_, ?_, ?_⟩
  · by_cases h : val = s.fme_error <;> simp [clear_store_eq, h]
  · by_cases h : val = s.fme_error <;> by_cases hr : s.revision = 0 <;>
      simp [clear_store_eq, h, hr] <;> decide
  · by_cases h : val0 = s.pcie0_error <;> simp [pcie0_errors_store_eq, h]
  · by_cases h : val1 = s.pcie1_error <;> simp [pcie1_errors_store_eq, h]
  · by_cases h : p.port_error = err <;> simp [port_err_clear_eq p err h6 hd, h]

/-- Witness for `clear_mask_steady` at concrete states, one matching and
one mismatching input each. -/
theorem clear_mask_steady_witness :
    (FmeErr.clear_store sampleFme 5).2.fme_error_mask = 0 ∧
    (AfuErr.__port_err_clear portOk 6).2.port_error_mask = 0 := by
  have h := clear_mask_steady sampleFme portOk 5 7 7 6 (by decide) (by decide)
  exact ⟨h.1.trans (by decide), h.2.2.2.2⟩

/-- C6: `fme_error_enable` drives PCIe0, PCIe1, RAS-NonFatal and
RAS-CatFatal masks to 0 and the FME error mask to 0 for nonzero
hardware revision and to exactly the MBP-error bit for revision 0; a
subsequent successful FME clear restores the same revision-dependent
mask value. -/
theorem fme_enable_steady_masks (s : FmeErr.FmeRegs) (val : Nat) :
    (FmeErr.fme_error_enable s).pcie0_error_mask = 0 ∧
    (FmeErr.fme_error_enable s).pcie1_error_mask = 0 ∧
    (FmeErr.fme_error_enable s).ras_nonfat_error_mask = 0 ∧
    (FmeErr.fme_error_enable s).ras_catfat_error_mask = 0 ∧
    (FmeErr.fme_error_enable s).fme_error_mask
        = (if s.revision = 0 then MBP_ERROR else 0) ∧
    (val = s.fme_error →
      (FmeErr.clear_store s val).1 = 0 ∧
      (FmeErr.clear_store s val).2.fme_error_mask
          = (FmeErr.fme_error_enable s).fme_error_mask) := by
  refine ⟨rfl, rfl, rfl, rfl, ?_, ?_⟩
  · by_cases hr : s.revision = 0 <;>
      simp [FmeErr.fme_error_enable, FmeErr.dfl_feature_revision, hr]
  · intro h
    by_cases hr : s.revision = 0 <;>
      simp [clear_store_eq, h, FmeErr.fme_error_enable,
        FmeErr.dfl_feature_revision, hr]

/-- Witness for `fme_enable_steady_masks`, at a revision-1 and a
revision-0 state. -/
theorem fme_enable_steady_masks_witness :
    ((FmeErr.fme_error_enable sampleFme).fme_error_mask = 0 ∧
     (FmeErr.clear_store sampleFme 5).2.fme_error_mask
         = (FmeErr.fme_error_enable sampleFme).fme_error_mask) ∧
    ((FmeErr.fme_error_enable { sampleFme with revision := 0 }).fme_error_mask
         = MBP_ERROR ∧
     (FmeErr.clear_store { sampleFme with revision := 0 } 5).2.fme_error_mask
         = (FmeErr.fme_error_enable
             { sampleFme with revision := 0 }).fme_error_mask) := by
  have h1 := fme_enable_steady_masks sampleFme 5
  have h0 := fme_enable_steady_masks { sampleFme with revision := 0 } 5
  exact ⟨⟨h1.2.2.2.2.1.trans (by decide), (h1.2.2.2.2.2 (by decide)).2⟩,
         ⟨h0.2.2.2.2.1.trans (by decide), (h0.2.2.2.2.2 (by decide)).2⟩⟩

theorem testBit_inject_mask (i : Nat) :
    INJECT_ERROR_MASK.testBit i = decide (i < 3) :=
  Nat.testBit_two_pow_sub_one 3 i

/-- The `inject_error & ~INJECT_ERROR_MASK` guard of `inject_error_store`
is exactly the range check `v < 8` on a u8 input. -/
theorem inject_guard (v : Nat) (hv : v < 2 ^ 8) :
    (v &&& (GENMASK64 ^^^ INJECT_ERROR_MASK) = 0) ↔ v < 8 := by
  constructor
  · intro h
    by_contra hge
    push_neg at hge
    have hge' : v ≥ 2 ^ 3 := by omega
    obtain ⟨i, hi3, hbit⟩ := Nat.ge_two_pow_implies_high_bit_true hge'
    have hi8 : i < 8 := by
      by_contra hbig
      push_neg at hbig
      have hf : v.testBit i = false :=
        Nat.testBit_lt_two_pow
          (lt_of_lt_of_le hv (Nat.pow_le_pow_right (by norm_num) hbig))
      rw [hf] at hbit
      exact Bool.noConfusion hbit
    have hone : (v &&& (GENMASK64 ^^^ INJECT_ERROR_MASK)).testBit i = true := by
      rw [Nat.testBit_and, Nat.testBit_xor, testBit_GENMASK64,
        testBit_inject_mask, hbit]
      have h64 : i < 64 := by omega
      have h3 : ¬ i < 3 := by omega
      simp [h64, h3]
    rw [h] at hone
    simp at hone
  · intro h
    apply Nat.eq_of_testBit_eq
    intro i
    rw [Nat.testBit_and, Nat.testBit_xor, testBit_GENMASK64,
      testBit_inject_mask, Nat.zero_testBit]
    by_cases h3 : i < 3
    · have h64 : i < 64 := by omega
      simp [h3, h64]
    · have hv3 : v < 2 ^ 3 := by omega
      have hf : v.testBit i = false :=
        Nat.testBit_lt_two_pow
          (lt_of_lt_of_le hv3 (Nat.pow_le_pow_right (by norm_num) (by omega)))
      simp [hf]

/-- C7: for every 8-bit input `v` to `inject_error_store`: out-of-range
`v` (some bit above the low 3 set, equivalently `8 ≤ v`) returns -EINVAL
with the whole state — the inject register included — exactly as found;
in-range `v` succeeds and performs a read-modify-write that replaces
exactly the low 3 bits of the inject register with `v` and preserves
every other bit of that register bit-for-bit. -/
theorem inject_error_rmw (s : FmeErr.FmeRegs) (v : Nat)
    (hv : v < 2 ^ 8) (hs : s.ras_error_inject < 2 ^ 64) :
    ((v &&& (GENMASK64 ^^^ INJECT_ERROR_MASK) = 0) ↔ v < 8) ∧
    (¬ v < 8 → FmeErr.inject_error_store s v = (-EINVAL, s)) ∧
    (v < 8 →
      (FmeErr.inject_error_store s v).1 = 0 ∧
      (∀ i, i < 3 →
        (FmeErr.inject_error_store s v).2.ras_error_inject.testBit i
          = v.testBit i) ∧
      (∀ i, 3 ≤ i →
        (FmeErr.inject_error_store s v).2.ras_error_inject.testBit i
          = s.ras_error_inject.testBit i)) := by
  refine ⟨inject_guard v hv, ?_, ?_⟩
  · intro h
    have hg : ¬ (v &&& (GENMASK64 ^^^ INJECT_ERROR_MASK) = 0) :=
      fun hc => h ((inject_guard v hv).mp hc)
    simp [FmeErr.inject_error_store, hg]
  · intro h
    have hg : v &&& (GENMASK64 ^^^ INJECT_ERROR_MASK) = 0 :=
      (inject_guard v hv).mpr h
    refine ⟨by simp [FmeErr.inject_error_store, hg], ?_, ?_⟩
    · intro i hi
      have h64 : i < 64 := by omega
      simp [FmeErr.inject_error_store, hg, testBit_GENMASK64,
        testBit_inject_mask, hi, h64]
    · intro i hi
      have h3 : ¬ i < 3 := by omega
      by_cases h64 : i < 64
      · simp [FmeErr.inject_error_store, hg, testBit_GENMASK64,
          testBit_inject_mask, h3, h64]
      · have hf : s.ras_error_inject.testBit i = false :=
          testBit_high_false hs (by omega)
        have hfv : v.testBit i = false :=
          Nat.testBit_lt_two_pow
            (lt_of_lt_of_le hv (Nat.pow_le_pow_right (by norm_num) (by omega)))
        simp [FmeErr.inject_error_store, hg, testBit_GENMASK64,
          testBit_inject_mask, h3, h64, hf, hfv]

/-- Witness for `inject_error_rmw`: a rejected out-of-range write and an
accepted in-range write at a concrete inject register value. -/
theorem inject_error_rmw_witness :
    FmeErr.inject_error_store sampleFme 9 = (-EINVAL, sampleFme) ∧
    (FmeErr.inject_error_store sampleFme 5).2.ras_error_inject.testBit 0
      = true ∧
    (FmeErr.inject_error_store sampleFme 5).2.ras_error_inject.testBit 4
      = sampleFme.ras_error_inject.testBit 4 := by
  have h9 := inject_error_rmw sampleFme 9 (by decide) (by decide)
  have h5 := inject_error_rmw sampleFme 5 (by decide) (by decide)
  refine ⟨h9.2.1 (by decide), ?_, (h5.2.2 (by decide)).2.2 4 (by decide)⟩
  rw [(h5.2.2 (by decide)).2.1 0 (by decide)]
  decide

/-- C8: a clear transaction that fails with Mismatch, and an
inject-selector write that fails with InvalidArgument, return every
register exactly as found, given the steady-state invariant that holds
whenever no transaction is in flight (masks at their steady-state
values, port not in reset). -/
theorem failure_atomicity (s : FmeErr.FmeRegs) (p : AfuErr.PortState)
    (val val0 val1 err v8 : Nat)
    (hmask : s.fme_error_mask = (if s.revision ≠ 0 then 0 else MBP_ERROR))
    (hm0 : s.pcie0_error_mask = 0) (hm1 : s.pcie1_error_mask = 0)
    (hpm : p.port_error_mask = 0) (hpr : p.in_reset = false)
    (h6 : AfuErr.port_power_state p.hdr_sts ≠ AfuErr.PORT_STS_PWR_STATE_AP6)
    (hd : p.disable_ret = 0) (hv8 : v8 < 2 ^ 8) :
    (val ≠ s.fme_error → FmeErr.clear_store s val = (-EINVAL, s)) ∧
    (val0 ≠ s.pcie0_error → FmeErr.pcie0_errors_store s val0 = (-EINVAL, s)) ∧
    (val1 ≠ s.pcie1_error → FmeErr.pcie1_errors_store s val1 = (-EINVAL, s)) ∧
    (err ≠ p.port_error → AfuErr.__port_err_clear p err = (-EINVAL, p)) ∧
    (¬ v8 < 8 → FmeErr.inject_error_store s v8 = (-EINVAL, s)) := by
  refine ⟨?_, ?_, ?_, ?_, ?_⟩
  · intro h
    rw [clear_store_eq, if_neg h, ← hmask]
  · intro h
    rw [pcie0_errors_store_eq, if_neg h, ← hm0]
  · intro h
    rw [pcie1_errors_store_eq, if_neg h, ← hm1]
  · intro h
    rw [port_err_clear_eq p err h6 hd, if_neg (fun hh => h hh.symm),
      ← hpm, ← hpr]
  · intro h
    have hg : ¬ (v8 &&& (GENMASK64 ^^^ INJECT_ERROR_MASK) = 0) :=
      fun hc => h ((inject_guard v8 hv8).mp hc)
    simp [FmeErr.inject_error_store, hg]

/-- Witness for `failure_atomicity` at concrete steady states with
mismatching and out-of-range inputs. -/
theorem failure_atomicity_witness :
    FmeErr.clear_store sampleFme 6 = (-EINVAL, sampleFme) ∧
    AfuErr.__port_err_clear portOk 6 = (-EINVAL, portOk) ∧
    FmeErr.inject_error_store sampleFme 12 = (-EINVAL, sampleFme) := by
  have h := failure_atomicity sampleFme portOk 6 4 10 6 12
    (by decide) rfl rfl rfl rfl (by decide) rfl (by decide)
  exact ⟨h.1 (by decide), h.2.2.2.1 (by decide), h.2.2.2.2 (by decide)⟩

/-- C9 counterexample: `pcie0_errors_show` (dfl-fme-error.c lines 51-61)
is an individually exposed single-register read whose load is performed
with no lock held, refuting the claim that every individually exposed
read acquires the domain lock for its load. -/
theorem fme_reads_unlocked_counterexample :
    FmeErr.pcie0_errors_show_ops = [RegOp.readReg FmeErr.PCIE0_ERROR] ∧
    readsUnderLock FmeErr.pcie0_errors_show_ops 0 = false := by
  constructor
  · rfl
  · rfl

/-- C9 amended: the Port-domain individually exposed reads (status,
first-error, malformed-request) perform their loads with the domain lock
held, while every FME-family individually exposed read (FME status,
first-error, next-error, PCIe0/PCIe1, RAS nonfatal/catfatal, inject
selector) performs its single load without acquiring the lock. -/
theorem individual_reads_locking :
    readsUnderLock AfuErr.errors_show_ops 0 = true ∧
    readsUnderLock AfuErr.first_error_show_ops 0 = true ∧
    readsUnderLock AfuErr.first_malformed_req_show_ops 0 = true ∧
    readsUnderLock FmeErr.errors_show_ops 0 = false ∧
    readsUnderLock FmeErr.first_error_show_ops 0 = false ∧
    readsUnderLock FmeErr.next_error_show_ops 0 = false ∧
    readsUnderLock FmeErr.pcie0_errors_show_ops 0 = false ∧
    readsUnderLock FmeErr.pcie1_errors_show_ops 0 = false ∧
    readsUnderLock FmeErr.nonfatal_errors_show_ops 0 = false ∧
    readsUnderLock FmeErr.catfatal_errors_show_ops 0 = false ∧
    readsUnderLock FmeErr.inject_error_show_ops 0 = false := by
  repeat constructor

